import Mathlib

/-!
# TinyAI model-conversion core: verification of the quantization and
# serialization pipeline

Shallow embedding of `src/tools/conversion/pytorch/pytorch_converter.py`
(and of the textually identical quantize/prune/cluster routines in the
TensorFlow and ONNX converters) into Lean 4.

Modelling conventions:
* floating-point scalars are modelled exactly as rationals (`ℚ`);
  `np.round` is round-half-to-even (banker's rounding), modelled by
  `roundHalfEven`;
* numpy arrays of scalars are `List ℚ`; a tensor is its flat value list
  together with its shape;
* the cast `.astype(np.uint8)` wraps modulo 256 (numpy behaviour on the
  platforms this tool targets);
* external library calls (sklearn KMeans, the C `struct.pack` float
  codec) are parameters of the embedding, universally quantified in the
  theorems that mention them;
* fallible code paths (a Python function falling off the end returns
  `None`) are `Option`.
-/

/-- Payload of a quantized tensor, at the granularity the converter
manipulates it: a float32 array passed through untouched (bits = 32), a
float16 cast of the original values (bits = 16, the cast kept symbolic),
or a uint8 array (bits = 8, and the packed nibbles of bits = 4). -/
inductive QData where
  | floats (vs : List ℚ)
  | halfs (vs : List ℚ)
  | bytes (bs : List ℕ)
  deriving DecidableEq, Repr

/-- Result triple of `_quantize_weights`: `(quantized_data, scale, zero_point)`. -/
structure QuantResult where
  data : QData
  scale : ℚ
  zeroPoint : ℤ
  deriving DecidableEq, Repr

namespace PyTorchConverter

/-- Round half to even, the rounding mode of `np.round`: away from a tie
this is `⌊q + 1/2⌋`; on a tie (`q + 1/2` an integer) the even neighbour
of the two candidates `⌊q + 1/2⌋ - 1` and `⌊q + 1/2⌋` is taken. -/
def roundHalfEven (q : ℚ) : ℤ :=
  let r := ⌊q + 1/2⌋
  if (r : ℚ) = q + 1/2 then (if r % 2 = 0 then r else r - 1) else r

/-- `np.clip(x, lo, hi)` on integers. -/
def clip (x lo hi : ℤ) : ℤ := max lo (min hi x)

/-- `np.max` over a flat weight array (the converter only quantizes
nonempty parameter tensors; on `[]` numpy raises, we return 0). -/
def listMax : List ℚ → ℚ
  | [] => 0
  | x :: xs => xs.foldl max x

/-- `np.min` over a flat weight array. -/
def listMin : List ℚ → ℚ
  | [] => 0
  | x :: xs => xs.foldl min x

/-- The per-value 4-bit quantization step of `_quantize_weights`:
`quantized_float = np.clip(np.round(weights / scale + zero_point), 0, 15)`. -/
def quantLevels (w : List ℚ) (scale : ℚ) (zeroPoint : ℤ) : List ℤ :=
  w.map (fun v => clip (roundHalfEven (v / scale + zeroPoint)) 0 15)

/-- The packing loop `for i in range(size // 2): out[i] = (qf[2i] << 4) | qf[2i+1]`:
consecutive pairs become one byte, a trailing odd element is not consumed. -/
def packPairs : List ℤ → List ℕ
  | a :: b :: rest => (a.toNat * 16 + b.toNat) :: packPairs rest
  | _ => []

/-- The full 4-bit packing of `_quantize_weights`: for an even element
count, the pair loop consumes everything; for an odd count the output
array has one extra zero-initialized byte, which is overwritten with
`last << 4` only when `weights.size > 1` (a single-element tensor keeps
the zero byte, dropping its value). -/
def pack4 (qf : List ℤ) : List ℕ :=
  if qf.length % 2 = 0 then packPairs qf
  else packPairs qf ++ [if 1 < qf.length then (qf.getLastD 0).toNat * 16 else 0]

/-- `PyTorchConverter._quantize_weights(weights, bits)` from
`src/tools/conversion/pytorch/pytorch_converter.py` lines 326-370.
For a bit width outside {4, 8, 16, 32} the Python function falls off the
end and implicitly returns `None`, modelled as `none`.
Arithmetic is exact rational here, which idealizes the float32 numpy
pipeline: at inputs where the float32 rounding of an intermediate
quotient changes a nearest-integer decision, the float32-exact model of
the 4-bit branch, `quantizeWeights4F32` below, is authoritative. -/
def quantizeWeights (w : List ℚ) (bits : ℕ) : Option QuantResult :=
  if bits = 32 then some ⟨.floats w, 1, 0⟩
  else if bits = 16 then some ⟨.halfs w, 1, 0⟩
  else
    let dataRange0 := listMax w - listMin w
    let dataRange := if dataRange0 = 0 then 1 else dataRange0
    if bits = 8 then
      let scale := dataRange / 255
      some ⟨.bytes (w.map (fun v =>
        ((roundHalfEven (v / scale + 0)) % 256).toNat)), scale, 0⟩
    else if bits = 4 then
      let scale := dataRange / 15
      some ⟨.bytes (pack4 (quantLevels w scale 0)), scale, 0⟩
    else none

/-- `PyTorchConverter._prune_weights(weights, threshold)`:
`mask = np.abs(weights) > threshold; pruned = weights * mask`
(multiplying by the 0/1 mask zeroes every element whose absolute value
is at most the threshold). -/
def pruneWeights (w : List ℚ) (threshold : ℚ) : List ℚ :=
  w.map (fun v => if threshold < |v| then v else 0)

end PyTorchConverter

/-- A weight tensor: its shape and its flat (row-major) scalar values,
matching the numpy array the converters manipulate. -/
structure Tensor where
  shape : List ℕ
  values : List ℚ
  deriving DecidableEq, Repr

/-- Result of a fitted `sklearn.cluster.KMeans`: the list of cluster
centers and, for each input scalar (in order), the index of its assigned
cluster.  sklearn is an external library, so the fit is a parameter of
the embedding. -/
structure KMeansFit where
  centers : List ℚ
  labels : List ℕ
  deriving Repr

namespace PyTorchConverter

/-- `len(np.unique(flattened))`: the number of distinct scalar values. -/
def countUnique (w : List ℚ) : ℕ := w.dedup.length

/-- `PyTorchConverter._apply_weight_clustering(weights, num_clusters)`:
returns the tensor unchanged when it has at most `num_clusters` distinct
values, otherwise replaces every value by the center of its assigned
cluster (`kmeans.cluster_centers_[kmeans.labels_]`), reshaped to the
original shape.  The KMeans fit itself (`KMeans(n_clusters,
random_state=0).fit`) is the external parameter `kmeans`. -/
def applyWeightClustering (kmeans : ℤ → List ℚ → KMeansFit)
    (t : Tensor) (numClusters : ℤ) : Tensor :=
  if (countUnique t.values : ℤ) ≤ numClusters then t
  else
    let fit := kmeans numClusters t.values
    ⟨t.shape, fit.labels.map (fun l => fit.centers.getD l 0)⟩

/-- One entry of `model.named_parameters()` as seen by
`_process_weights`: its dotted name and its `requires_grad` flag. -/
structure NamedParam where
  name : String
  requiresGrad : Bool
  deriving DecidableEq, Repr

/-- The parameter-selection step of `PyTorchConverter._process_weights`
(lines 232-235): the loop body starts with
`if not param.requires_grad and not self.verbose: continue`,
so a parameter is processed iff `requires_grad or verbose`. -/
def processedNames (verbose : Bool) (params : List NamedParam) : List String :=
  (params.filter (fun p => p.requiresGrad || verbose)).map NamedParam.name

end PyTorchConverter

namespace PyTorchConverter

/-- `struct.pack("i", z)`: one 32-bit integer, two's complement, in the
machine's native little-endian byte order. -/
def int32LE (z : ℤ) : List ℕ :=
  let n := (z % (2 ^ 32)).toNat
  [n % 256, n / 256 % 256, n / 256 ^ 2 % 256, n / 256 ^ 3 % 256]

/-- `data.tobytes()` for the three payload kinds handled by
`_save_model`, parameterized by the external float32 and float16 byte
codecs of `struct.pack` / numpy (`f32`, `f16`). -/
def payloadBytes (f32 f16 : ℚ → List ℕ) : QData → List ℕ
  | .floats vs => vs.flatMap f32
  | .halfs vs => vs.flatMap f16
  | .bytes bs => bs

/-- One `weight_info` dictionary as consumed by `_save_model`: the shape,
the `(scale, zero_point, bits)` triple when the weight was quantized
(`"scale" in weight_info and "zero_point" in weight_info`), and the data
payload. -/
structure WeightEntry where
  shape : List ℤ
  quant : Option (ℚ × ℤ × ℤ)
  data : QData
  deriving DecidableEq, Repr

/-- The per-weight encoding appended to the binary blob by `_save_model`
(lines 503-523): the shape as native 32-bit integers, then for quantized
weights `scale` (float32), `zero_point` (int32), `bits` (int32), then
the payload bytes. -/
def encodeEntry (f32 f16 : ℚ → List ℕ) (e : WeightEntry) : List ℕ :=
  (e.shape.flatMap int32LE) ++
    (match e.quant with
      | some (scale, zp, bits) => f32 scale ++ int32LE zp ++ int32LE bits
      | none => []) ++
    payloadBytes f32 f16 e.data

/-- The inner loop of `_save_model` over one layer's weights: walking the
role → weight-info pairs, recording `layer_offsets[name] = len(weight_data)`
just before appending each encoding.  `base` is the byte length
accumulated in `weight_data` so far. -/
def encodeRoles (f32 f16 : ℚ → List ℕ) (base : ℕ) :
    List (String × WeightEntry) → List (String × ℕ) × List ℕ
  | [] => ([], [])
  | (r, e) :: rest =>
      let enc := encodeEntry f32 f16 e
      let tail := encodeRoles f32 f16 (base + enc.length) rest
      ((r, base) :: tail.1, enc ++ tail.2)

/-- The outer loop of `_save_model` over the weight store: owners in
iteration order, producing the `weight_offsets` index and the binary
blob. -/
def encodeStore (f32 f16 : ℚ → List ℕ) (base : ℕ) :
    List (String × List (String × WeightEntry)) →
      List (String × List (String × ℕ)) × List ℕ
  | [] => ([], [])
  | (owner, roles) :: rest =>
      let r := encodeRoles f32 f16 base roles
      let tail := encodeStore f32 f16 (base + r.2.length) rest
      ((owner, r.1) :: tail.1, r.2 ++ tail.2)

/-- The two output files of `_save_model` as far as their presence and
contents matter: the metadata JSON (carrying the `weight_offsets` index)
and the binary weights file. -/
structure FSState where
  metaFile : Option (List (String × List (String × ℕ)))
  binFile : Option (List ℕ)
  deriving DecidableEq, Repr

/-- `PyTorchConverter._save_model` (lines 479-551) as a state machine on
the destination filesystem.  The body builds the blob and offset index,
writes the metadata JSON, then writes the binary file; any raised I/O
error is caught by the enclosing `try/except`, which logs it and returns
`False`, leaving whatever was already written on disk.  `canWriteMeta`
and `canWriteBin` say whether each of the two `open(...)`/write steps
succeeds. -/
def saveModel (f32 f16 : ℚ → List ℕ) (canWriteMeta canWriteBin : Bool)
    (weights : List (String × List (String × WeightEntry)))
    (fs : FSState) : Bool × FSState :=
  let encoded := encodeStore f32 f16 0 weights
  if canWriteMeta then
    let fs1 : FSState := ⟨some encoded.1, fs.binFile⟩
    if canWriteBin then (true, ⟨fs1.metaFile, some encoded.2⟩)
    else (false, fs1)
  else (false, fs)

/-- Reader-side access into the weight store: the entry recorded for an
`(owner, role)` pair (`weights[layer_name][weight_name]`). -/
def lookupStore (store : List (String × List (String × WeightEntry)))
    (owner role : String) : Option WeightEntry :=
  (store.lookup owner).bind (fun rs => rs.lookup role)

/-- Reader-side access into the `weight_offsets` index of the metadata
document (`weight_offsets[layer_name][weight_name]`). -/
def lookupOffset (offs : List (String × List (String × ℕ)))
    (owner role : String) : Option ℕ :=
  (offs.lookup owner).bind (fun rs => rs.lookup role)

end PyTorchConverter

/-!
The TensorFlow and ONNX converters carry their own copies of the
prune/cluster/quantize routines
(`src/tools/conversion/tensorflow/tensorflow_converter.py` lines 262-336,
`src/tools/conversion/onnx/onnx_converter.py` lines 306-380); each is
embedded separately from its own file so their extensional equality can
be stated.
-/

namespace TensorFlowConverter

/-- `np.round` (round half to even) as used by the TensorFlow converter. -/
def roundHalfEven (q : ℚ) : ℤ :=
  let r := ⌊q + 1/2⌋
  if (r : ℚ) = q + 1/2 then (if r % 2 = 0 then r else r - 1) else r

/-- `np.clip` on integers. -/
def clip (x lo hi : ℤ) : ℤ := max lo (min hi x)

/-- `np.max` over a flat weight array. -/
def listMax : List ℚ → ℚ
  | [] => 0
  | x :: xs => xs.foldl max x

/-- `np.min` over a flat weight array. -/
def listMin : List ℚ → ℚ
  | [] => 0
  | x :: xs => xs.foldl min x

/-- The 4-bit level computation of
`TensorFlowConverter._quantize_weights`. -/
def quantLevels (w : List ℚ) (scale : ℚ) (zeroPoint : ℤ) : List ℤ :=
  w.map (fun v => clip (roundHalfEven (v / scale + zeroPoint)) 0 15)

/-- The nibble-pairing loop of `TensorFlowConverter._quantize_weights`. -/
def packPairs : List ℤ → List ℕ
  | a :: b :: rest => (a.toNat * 16 + b.toNat) :: packPairs rest
  | _ => []

/-- The full 4-bit packing of `TensorFlowConverter._quantize_weights`. -/
def pack4 (qf : List ℤ) : List ℕ :=
  if qf.length % 2 = 0 then packPairs qf
  else packPairs qf ++ [if 1 < qf.length then (qf.getLastD 0).toNat * 16 else 0]

/-- `TensorFlowConverter._quantize_weights(weights, bits)`
(`tensorflow_converter.py` lines 292-336). -/
def quantizeWeights (w : List ℚ) (bits : ℕ) : Option QuantResult :=
  if bits = 32 then some ⟨.floats w, 1, 0⟩
  else if bits = 16 then some ⟨.halfs w, 1, 0⟩
  else
    let dataRange0 := listMax w - listMin w
    let dataRange := if dataRange0 = 0 then 1 else dataRange0
    if bits = 8 then
      let scale := dataRange / 255
      some ⟨.bytes (w.map (fun v =>
        ((roundHalfEven (v / scale + 0)) % 256).toNat)), scale, 0⟩
    else if bits = 4 then
      let scale := dataRange / 15
      some ⟨.bytes (pack4 (quantLevels w scale 0)), scale, 0⟩
    else none

/-- `TensorFlowConverter._prune_weights(weights, threshold)`
(`tensorflow_converter.py` lines 262-268). -/
def pruneWeights (w : List ℚ) (threshold : ℚ) : List ℚ :=
  w.map (fun v => if threshold < |v| then v else 0)

/-- `len(np.unique(flattened))` in the TensorFlow converter. -/
def countUnique (w : List ℚ) : ℕ := w.dedup.length

/-- `TensorFlowConverter._apply_weight_clustering(weights, num_clusters)`
(`tensorflow_converter.py` lines 270-290). -/
def applyWeightClustering (kmeans : ℤ → List ℚ → KMeansFit)
    (t : Tensor) (numClusters : ℤ) : Tensor :=
  if (countUnique t.values : ℤ) ≤ numClusters then t
  else
    let fit := kmeans numClusters t.values
    ⟨t.shape, fit.labels.map (fun l => fit.centers.getD l 0)⟩

end TensorFlowConverter

namespace ONNXConverter

/-- `np.round` (round half to even) as used by the ONNX converter. -/
def roundHalfEven (q : ℚ) : ℤ :=
  let r := ⌊q + 1/2⌋
  if (r : ℚ) = q + 1/2 then (if r % 2 = 0 then r else r - 1) else r

/-- `np.clip` on integers. -/
def clip (x lo hi : ℤ) : ℤ := max lo (min hi x)

/-- `np.max` over a flat weight array. -/
def listMax : List ℚ → ℚ
  | [] => 0
  | x :: xs => xs.foldl max x

/-- `np.min` over a flat weight array. -/
def listMin : List ℚ → ℚ
  | [] => 0
  | x :: xs => xs.foldl min x

/-- The 4-bit level computation of `ONNXConverter._quantize_weights`. -/
def quantLevels (w : List ℚ) (scale : ℚ) (zeroPoint : ℤ) : List ℤ :=
  w.map (fun v => clip (roundHalfEven (v / scale + zeroPoint)) 0 15)

/-- The nibble-pairing loop of `ONNXConverter._quantize_weights`. -/
def packPairs : List ℤ → List ℕ
  | a :: b :: rest => (a.toNat * 16 + b.toNat) :: packPairs rest
  | _ => []

/-- The full 4-bit packing of `ONNXConverter._quantize_weights`. -/
def pack4 (qf : List ℤ) : List ℕ :=
  if qf.length % 2 = 0 then packPairs qf
  else packPairs qf ++ [if 1 < qf.length then (qf.getLastD 0).toNat * 16 else 0]

/-- `ONNXConverter._quantize_weights(weights, bits)`
(`onnx_converter.py` lines 336-380). -/
def quantizeWeights (w : List ℚ) (bits : ℕ) : Option QuantResult :=
  if bits = 32 then some ⟨.floats w, 1, 0⟩
  else if bits = 16 then some ⟨.halfs w, 1, 0⟩
  else
    let dataRange0 := listMax w - listMin w
    let dataRange := if dataRange0 = 0 then 1 else dataRange0
    if bits = 8 then
      let scale := dataRange / 255
      some ⟨.bytes (w.map (fun v =>
        ((roundHalfEven (v / scale + 0)) % 256).toNat)), scale, 0⟩
    else if bits = 4 then
      let scale := dataRange / 15
      some ⟨.bytes (pack4 (quantLevels w scale 0)), scale, 0⟩
    else none

/-- `ONNXConverter._prune_weights(weights, threshold)`
(`onnx_converter.py` lines 306-312). -/
def pruneWeights (w : List ℚ) (threshold : ℚ) : List ℚ :=
  w.map (fun v => if threshold < |v| then v else 0)

/-- `len(np.unique(flattened))` in the ONNX converter. -/
def countUnique (w : List ℚ) : ℕ := w.dedup.length

/-- `ONNXConverter._apply_weight_clustering(weights, num_clusters)`
(`onnx_converter.py` lines 314-334). -/
def applyWeightClustering (kmeans : ℤ → List ℚ → KMeansFit)
    (t : Tensor) (numClusters : ℤ) : Tensor :=
  if (countUnique t.values : ℤ) ≤ numClusters then t
  else
    let fit := kmeans numClusters t.values
    ⟨t.shape, fit.labels.map (fun l => fit.centers.getD l 0)⟩

end ONNXConverter

namespace PyTorchConverter

/-- Round a rational to the nearest IEEE-754 binary32 (float32) value,
round half to even: the nearest multiple of `2 ^ (⌊log₂ |q|⌋ - 23)` (the
significand has 24 bits).  Defined on the normal range only — no
overflow or subnormal handling, every value arising in this development
is far inside the normal range. -/
def fl32 (q : ℚ) : ℚ :=
  if q = 0 then 0
  else
    (if q < 0 then -1 else 1) *
      (roundHalfEven (|q| / 2 ^ (Int.log 2 |q| - 23)) : ℚ) *
      2 ^ (Int.log 2 |q| - 23)

/-- Float32 subtraction: IEEE arithmetic is exactly rounded, so the
float32 difference is `fl32` of the exact difference. -/
def fsub32 (a b : ℚ) : ℚ := fl32 (a - b)

/-- Float32 division: `fl32` of the exact quotient. -/
def fdiv32 (a b : ℚ) : ℚ := fl32 (a / b)

/-- The 4-bit level computation of `_quantize_weights` with float32
division: `np.clip(np.round(weights / scale + zero_point), 0, 15)` where
`weights / scale` divides float32 by float32 elementwise (`np.round` and
`np.clip` are exact on the resulting values). -/
def quantLevels4F32 (w : List ℚ) (scale : ℚ) : List ℤ :=
  w.map (fun v => clip (roundHalfEven (fdiv32 v scale + 0)) 0 15)

/-- The 4-bit branch of `_quantize_weights` with the float32 arithmetic
the numpy pipeline actually performs: the tensor holds float32 values,
`data_range = np.max(weights) - np.min(weights)` is a float32
subtraction, `scale = data_range / 15.0` and `weights / scale` are
float32 divisions (an `np.float32` scalar combined with a Python scalar
stays float32), and the rounding, clamping and nibble packing are exact
on the resulting small integers.  This refines the exact-rational
`quantizeWeights` at inputs where the float32 rounding of an
intermediate quotient changes a nearest-integer decision. -/
def quantizeWeights4F32 (w : List ℚ) : QuantResult :=
  let dataRange0 := fsub32 (listMax w) (listMin w)
  let dataRange := if dataRange0 = 0 then 1 else dataRange0
  let scale := fdiv32 dataRange 15
  ⟨.bytes (pack4 (quantLevels4F32 w scale)), scale, 0⟩

end PyTorchConverter

/-!
## Claim theorems
-/

/-- On the normal range, the float32 rounding of a positive rational `a`
with `2 ^ e ≤ a < 2 ^ (e + 1)` is the round-to-nearest-even multiple of
`2 ^ (e - 23)`. -/
theorem fl32_pos_eq (a : ℚ) (e : ℤ) (ha : 0 < a)
    (h1 : (2 : ℚ) ^ e ≤ a) (h2 : a < (2 : ℚ) ^ (e + 1)) :
    PyTorchConverter.fl32 a =
      (PyTorchConverter.roundHalfEven (a / 2 ^ (e - 23)) : ℚ) * 2 ^ (e - 23) := by
  have hle : e ≤ Int.log 2 a := by
    rw [← Int.zpow_le_iff_le_log one_lt_two ha]
    push_cast
    exact h1
  have hlt : Int.log 2 a < e + 1 := by
    rw [← Int.lt_zpow_iff_log_lt one_lt_two ha]
    push_cast
    exact h2
  have hlog : Int.log 2 a = e := by omega
  rw [PyTorchConverter.fl32, if_neg (ne_of_gt ha), abs_of_pos ha, hlog,
    if_neg (not_lt.mpr ha.le)]
  ring

/-- Float32 rounding commutes with negation (the significand rounding is
symmetric). -/
theorem fl32_neg_eq (a : ℚ) :
    PyTorchConverter.fl32 (-a) = -PyTorchConverter.fl32 a := by
  rcases lt_trichotomy a 0 with h | h | h
  · have hna : (0 : ℚ) < -a := by linarith
    rw [PyTorchConverter.fl32, PyTorchConverter.fl32, if_neg (ne_of_gt hna),
      if_neg (ne_of_lt h), abs_neg, if_neg (not_lt.mpr hna.le), if_pos h]
    ring
  · rw [h]
    norm_num [PyTorchConverter.fl32]
  · have hna : -a < 0 := by linarith
    rw [PyTorchConverter.fl32, PyTorchConverter.fl32, if_neg (ne_of_lt hna),
      if_neg (ne_of_gt h), abs_neg, if_pos hna, if_neg (not_lt.mpr h.le)]
    ring

/-- Float32 evaluation of the C1 levels, step by step: the scale
`fl32(2/15) = 8947849/2^26` rounds up from `2/15`, so `1.0 / scale` is
`15728639/2^21 = 7.49999952…`, which rounds to 7 (the exact-arithmetic
tie at 7.5 never occurs in float32), and the negative values round to
-7 and -4 before clamping to 0. -/
theorem quantLevels4F32_c1_eval :
    PyTorchConverter.quantLevels4F32 [-1, -1/2, 0, 1/2, 1] (8947849/67108864) =
      [0, 0, 0, 4, 7] := by
  have hd1 : PyTorchConverter.fl32 (67108864/8947849) = 15728639/2097152 := by
    rw [fl32_pos_eq (67108864/8947849) 2 (by norm_num) (by norm_num) (by norm_num)]
    norm_num [PyTorchConverter.roundHalfEven]
  have hdh : PyTorchConverter.fl32 (33554432/8947849) = 15728639/4194304 := by
    rw [fl32_pos_eq (33554432/8947849) 1 (by norm_num) (by norm_num) (by norm_num)]
    norm_num [PyTorchConverter.roundHalfEven]
  have hdiv1 : PyTorchConverter.fdiv32 1 (8947849/67108864) = 15728639/2097152 := by
    rw [PyTorchConverter.fdiv32,
      show (1 : ℚ) / (8947849/67108864) = 67108864/8947849 by norm_num, hd1]
  have hdivn1 : PyTorchConverter.fdiv32 (-1) (8947849/67108864) =
      -(15728639/2097152) := by
    rw [PyTorchConverter.fdiv32,
      show (-1 : ℚ) / (8947849/67108864) = -(67108864/8947849) by norm_num,
      fl32_neg_eq, hd1]
  have hdivh : PyTorchConverter.fdiv32 (1/2) (8947849/67108864) =
      15728639/4194304 := by
    rw [PyTorchConverter.fdiv32,
      show (1/2 : ℚ) / (8947849/67108864) = 33554432/8947849 by norm_num, hdh]
  have hdivnh : PyTorchConverter.fdiv32 (-1/2) (8947849/67108864) =
      -(15728639/4194304) := by
    rw [PyTorchConverter.fdiv32,
      show (-1/2 : ℚ) / (8947849/67108864) = -(33554432/8947849) by norm_num,
      fl32_neg_eq, hdh]
  have hdiv0 : PyTorchConverter.fdiv32 0 (8947849/67108864) = 0 := by
    norm_num [PyTorchConverter.fdiv32, PyTorchConverter.fl32]
  simp only [PyTorchConverter.quantLevels4F32, List.map, hdivn1, hdivnh,
    hdiv0, hdivh, hdiv1]
  norm_num [PyTorchConverter.clip, PyTorchConverter.roundHalfEven,
    max_def, min_def]

/-- Float32 evaluation of the C1 scale: `fl32(2/15) = 8947849/2^26`,
which rounds up from `2/15`. -/
theorem fl32_two_fifteenths :
    PyTorchConverter.fl32 (2/15) = 8947849/67108864 := by
  rw [fl32_pos_eq (2/15) (-3) (by norm_num) (by norm_num) (by norm_num)]
  norm_num [PyTorchConverter.roundHalfEven]

/-- Float32 evaluation of the C1 data range: `fl32(1 - (-1)) = 2`
exactly. -/
theorem fsub32_c1_range :
    PyTorchConverter.fsub32 (PyTorchConverter.listMax [-1, -1/2, 0, 1/2, 1])
      (PyTorchConverter.listMin [-1, -1/2, 0, 1/2, 1]) = 2 := by
  have hmax : PyTorchConverter.listMax [-1, -1/2, 0, 1/2, 1] = 1 := by
    norm_num [PyTorchConverter.listMax, max_def]
  have hmin : PyTorchConverter.listMin [-1, -1/2, 0, 1/2, 1] = -1 := by
    norm_num [PyTorchConverter.listMin, min_def]
  have hfl2 : PyTorchConverter.fl32 2 = 2 := by
    rw [fl32_pos_eq 2 1 (by norm_num) (by norm_num) (by norm_num)]
    norm_num [PyTorchConverter.roundHalfEven]
  rw [hmax, hmin, PyTorchConverter.fsub32, show (1 : ℚ) - (-1) = 2 by norm_num,
    hfl2]

/-- Float32 evaluation of the full C1 quantization: levels
`[0, 0, 0, 4, 7]` pack into the bytes `0x00, 0x04, 0x70`. -/
theorem quantizeWeights4F32_c1_eval :
    PyTorchConverter.quantizeWeights4F32 [-1, -1/2, 0, 1/2, 1] =
      ⟨QData.bytes [0x00, 0x04, 0x70], 8947849/67108864, 0⟩ := by
  rw [PyTorchConverter.quantizeWeights4F32]
  simp only [fsub32_c1_range]
  rw [if_neg (by norm_num : (2 : ℚ) ≠ 0),
    show PyTorchConverter.fdiv32 2 15 = 8947849/67108864 by
      rw [PyTorchConverter.fdiv32, show (2 : ℚ) / 15 = 2/15 from rfl,
        fl32_two_fifteenths],
    quantLevels4F32_c1_eval]
  norm_num [PyTorchConverter.pack4, PyTorchConverter.packPairs]
  omega

/-- C1, counterexample: on the weight tensor `[-1.0, -0.5, 0.0, 0.5, 1.0]`
at 4 bits, computed with the float32 arithmetic the numpy pipeline performs,
the quantizer does NOT produce the levels `[0, 4, 8, 11, 15]` packed as
`0x04, 0x8B, 0xF0` claimed by the spec: the fixed `zero_point = 0` clamps
every non-positive value to level 0, and `scale = fl32(2/15)` rounds up so
`1.0 / scale = 7.4999995…` rounds to 7, not 8. -/
theorem c1_concrete_scenario_counterexample :
    PyTorchConverter.quantizeWeights4F32 [-1, -1/2, 0, 1/2, 1] ≠
      ⟨QData.bytes [0x04, 0x8B, 0xF0], 2/15, 0⟩ := by
  rw [quantizeWeights4F32_c1_eval]
  simp

/-- C1, amended: on `[-1.0, -0.5, 0.0, 0.5, 1.0]` at 4 bits the program
computes `data_range = 2.0` and `scale = fl32(2/15) = 8947849/2^26` (the
float32 rounding of 2/15, slightly above it), maps the values to the
clamped levels `[0, 0, 0, 4, 7]` — the non-positive values clamp to 0
because `zero_point` is fixed at 0, and `1.0 / scale = 7.4999995…` rounds
to 7 — and packs them into exactly 3 bytes `0x00, 0x04, 0x70`. -/
theorem c1_concrete_scenario_amended :
    PyTorchConverter.fsub32 (PyTorchConverter.listMax [-1, -1/2, 0, 1/2, 1])
        (PyTorchConverter.listMin [-1, -1/2, 0, 1/2, 1]) = 2 ∧
    PyTorchConverter.fl32 (2/15) = 8947849/67108864 ∧
    PyTorchConverter.quantLevels4F32 [-1, -1/2, 0, 1/2, 1] (8947849/67108864) =
      [0, 0, 0, 4, 7] ∧
    PyTorchConverter.quantizeWeights4F32 [-1, -1/2, 0, 1/2, 1] =
      ⟨QData.bytes [0x00, 0x04, 0x70], 8947849/67108864, 0⟩ :=
  ⟨fsub32_c1_range, fl32_two_fifteenths, quantLevels4F32_c1_eval,
    quantizeWeights4F32_c1_eval⟩

/-- C2, counterexample: on the constant tensor `[2.0, 2.0]` (max = min) the
8-bit quantizer returns `scale = 1/255`, not `scale = 1.0` as the claim
states (the substituted value 1.0 is the data range, which is then still
divided by 255). -/
theorem c2_zero_range_counterexample :
    (PyTorchConverter.quantizeWeights [2, 2] 8).map QuantResult.scale =
        some (1/255) ∧ (1/255 : ℚ) ≠ 1 := by
  constructor
  · norm_num [PyTorchConverter.quantizeWeights, PyTorchConverter.roundHalfEven,
      PyTorchConverter.listMax, PyTorchConverter.listMin, max_def, min_def]
  · norm_num

/-- C2, amended: for every tensor whose maximum equals its minimum, the
zero data range is substituted by 1.0 so quantization at 8 or 4 bits never
divides by zero; the returned scale is `1/255` at 8 bits and `1/15` at 4
bits (both nonzero), not 1.0. -/
theorem c2_zero_range_amended (w : List ℚ)
    (h : PyTorchConverter.listMax w = PyTorchConverter.listMin w) :
    (PyTorchConverter.quantizeWeights w 8).map QuantResult.scale = some (1/255) ∧
    (PyTorchConverter.quantizeWeights w 4).map QuantResult.scale = some (1/15) ∧
    (1/255 : ℚ) ≠ 0 ∧ (1/15 : ℚ) ≠ 0 := by
  refine ⟨?_, ?_, by norm_num, by norm_num⟩ <;>
    simp [PyTorchConverter.quantizeWeights, h]

/-- C2, witness: the amended theorem applied to the constant tensor
`[2.0, 2.0]`. -/
theorem c2_zero_range_witness :
    (PyTorchConverter.quantizeWeights [2, 2] 8).map QuantResult.scale = some (1/255) ∧
    (PyTorchConverter.quantizeWeights [2, 2] 4).map QuantResult.scale = some (1/15) ∧
    (1/255 : ℚ) ≠ 0 ∧ (1/15 : ℚ) ≠ 0 :=
  c2_zero_range_amended [2, 2]
    (by norm_num [PyTorchConverter.listMax, PyTorchConverter.listMin, max_def, min_def])

/-- C3, code bug at the failing input `[1.0]` (element count 1, odd): the
value quantizes to level 15, so per the claim (and the code's own
`# Handle the last element` comment) the single output byte should be
`0xF0`; but the guard `if weights.size > 1` skips the high-nibble store for
a single-element tensor, leaving the zero-initialized byte `0x00` and
silently dropping the value.  The payload length `ceil(1/2) = 1` and the
zero low nibble do hold. -/
theorem c3_odd_padding_single_element_bug :
    PyTorchConverter.quantLevels [1] (1/15) 0 = [15] ∧
    PyTorchConverter.quantizeWeights [1] 4 = some ⟨QData.bytes [0x00], 1/15, 0⟩ := by
  constructor <;>
    norm_num [PyTorchConverter.quantizeWeights, PyTorchConverter.quantLevels,
      PyTorchConverter.pack4, PyTorchConverter.packPairs, PyTorchConverter.clip,
      PyTorchConverter.roundHalfEven, PyTorchConverter.listMax,
      PyTorchConverter.listMin, max_def, min_def, Int.toNat_ofNat]

/-- C4, code bug at the failing input `bits = 12`: the converter performs no
configuration validation, and `_quantize_weights` with a bit width outside
{4, 8, 16, 32} falls through every branch and implicitly returns `None`
(contradicting its annotated return type `Tuple[np.ndarray, float, int]`),
so the failure surfaces only as a `TypeError` when the caller unpacks the
result — per tensor, after pruning and clustering already ran — instead of
a fatal up-front rejection naming the offending value. -/
theorem c4_no_config_validation_bug :
    PyTorchConverter.quantizeWeights [1, 2] 12 = none := by
  norm_num [PyTorchConverter.quantizeWeights]

/-- C7: `quantize(t, 32)` is a passthrough — the result keeps the float32
values untouched with `scale = 1.0` and `zero_point = 0`, the serialized
payload is exactly the concatenated raw float32 bytes of the values, and
decoding each value's bytes with any faithful float32 codec round-trips
bit-identically to the original values. -/
theorem c7_quantize32_passthrough (w : List ℚ) (f32 f16 : ℚ → List ℕ)
    (dec : List ℕ → ℚ) (hcodec : ∀ v ∈ w, dec (f32 v) = v) :
    PyTorchConverter.quantizeWeights w 32 = some ⟨QData.floats w, 1, 0⟩ ∧
    PyTorchConverter.payloadBytes f32 f16 (QData.floats w) = w.flatMap f32 ∧
    (w.map f32).map dec = w := by
  refine ⟨rfl, rfl, ?_⟩
  rw [List.map_map]
  exact List.map_congr_left hcodec |>.trans (List.map_id w)

/-- C7, witness: the passthrough theorem applied to the tensor `[5]` with a
concrete codec. -/
theorem c7_quantize32_witness :
    PyTorchConverter.quantizeWeights [5] 32 = some ⟨QData.floats [5], 1, 0⟩ ∧
    PyTorchConverter.payloadBytes (fun _ => [7]) (fun _ => [])
        (QData.floats [5]) = [(5 : ℚ)].flatMap (fun _ => [7]) ∧
    ([(5 : ℚ)].map (fun _ => [7])).map (fun _ => (5 : ℚ)) = [5] :=
  c7_quantize32_passthrough [5] (fun _ => [7]) (fun _ => []) (fun _ => 5)
    (by intro v hv; rw [List.mem_singleton] at hv; rw [hv])

/-- The nibble-pairing loops of the three converters agree (TensorFlow vs
PyTorch). -/
theorem tf_packPairs_eq : ∀ l : List ℤ,
    TensorFlowConverter.packPairs l = PyTorchConverter.packPairs l
  | [] => rfl
  | [_] => rfl
  | _ :: _ :: rest => by
      simp only [TensorFlowConverter.packPairs, PyTorchConverter.packPairs]
      rw [tf_packPairs_eq rest]

/-- The nibble-pairing loops of the three converters agree (ONNX vs
PyTorch). -/
theorem onnx_packPairs_eq : ∀ l : List ℤ,
    ONNXConverter.packPairs l = PyTorchConverter.packPairs l
  | [] => rfl
  | [_] => rfl
  | _ :: _ :: rest => by
      simp only [ONNXConverter.packPairs, PyTorchConverter.packPairs]
      rw [onnx_packPairs_eq rest]

/-- The full 4-bit packings of the three converters agree. -/
theorem tf_pack4_eq (l : List ℤ) :
    TensorFlowConverter.pack4 l = PyTorchConverter.pack4 l := by
  simp [TensorFlowConverter.pack4, PyTorchConverter.pack4, tf_packPairs_eq]

/-- The full 4-bit packings of the three converters agree (ONNX side). -/
theorem onnx_pack4_eq (l : List ℤ) :
    ONNXConverter.pack4 l = PyTorchConverter.pack4 l := by
  simp [ONNXConverter.pack4, PyTorchConverter.pack4, onnx_packPairs_eq]

/-- C9: the quantize, prune and cluster routines of the PyTorch, TensorFlow
and ONNX converters are extensionally equal — on every input all three
produce identical results. -/
theorem c9_three_converters_extensionally_equal :
    (∀ (w : List ℚ) (bits : ℕ),
        PyTorchConverter.quantizeWeights w bits = TensorFlowConverter.quantizeWeights w bits ∧
        PyTorchConverter.quantizeWeights w bits = ONNXConverter.quantizeWeights w bits) ∧
    (∀ (w : List ℚ) (threshold : ℚ),
        PyTorchConverter.pruneWeights w threshold = TensorFlowConverter.pruneWeights w threshold ∧
        PyTorchConverter.pruneWeights w threshold = ONNXConverter.pruneWeights w threshold) ∧
    (∀ (km : ℤ → List ℚ → KMeansFit) (t : Tensor) (k : ℤ),
        PyTorchConverter.applyWeightClustering km t k = TensorFlowConverter.applyWeightClustering km t k ∧
        PyTorchConverter.applyWeightClustering km t k = ONNXConverter.applyWeightClustering km t k) := by
  refine ⟨fun w bits => ⟨?_, ?_⟩, fun w t => ⟨rfl, rfl⟩, fun km t k => ⟨rfl, rfl⟩⟩
  · simp only [PyTorchConverter.quantizeWeights, TensorFlowConverter.quantizeWeights,
      tf_pack4_eq]
    rfl
  · simp only [PyTorchConverter.quantizeWeights, ONNXConverter.quantizeWeights,
      onnx_pack4_eq]
    rfl

/-- C10: in `_process_weights`, a parameter with `requires_grad == False` is
included in the output iff the `verbose` flag is set (the loop skips it only
when `not requires_grad and not verbose`); hence two runs differing only in
the verbose logging flag produce different weight stores whenever such a
parameter exists. -/
theorem c10_nontrainable_inclusion_depends_on_verbose
    (params : List PyTorchConverter.NamedParam) (p : PyTorchConverter.NamedParam)
    (hnodup : (params.map PyTorchConverter.NamedParam.name).Nodup)
    (hmem : p ∈ params) (hgrad : p.requiresGrad = false) :
    (∀ verbose, p.name ∈ PyTorchConverter.processedNames verbose params ↔ verbose = true) ∧
    PyTorchConverter.processedNames true params ≠
      PyTorchConverter.processedNames false params := by
  have hin : p.name ∈ PyTorchConverter.processedNames true params := by
    unfold PyTorchConverter.processedNames
    exact List.mem_map_of_mem _ (List.mem_filter.mpr ⟨hmem, by simp⟩)
  have hout : p.name ∉ PyTorchConverter.processedNames false params := by
    unfold PyTorchConverter.processedNames
    intro hcontra
    obtain ⟨q, hq, hqname⟩ := List.mem_map.mp hcontra
    obtain ⟨hqmem, hqcond⟩ := List.mem_filter.mp hq
    have hqp : q = p :=
      List.inj_on_of_nodup_map hnodup hqmem hmem hqname
    rw [hqp, hgrad] at hqcond
    simp at hqcond
  refine ⟨?_, ?_⟩
  · intro verbose
    cases verbose
    · simpa using hout
    · simpa using hin
  · intro heq
    rw [heq] at hin
    exact hout hin

/-- C10, witness: applied to a model with the non-trainable parameter `"a"`
and the trainable parameter `"b"`. -/
theorem c10_nontrainable_inclusion_witness :
    (∀ verbose, "a" ∈ PyTorchConverter.processedNames verbose
        [⟨"a", false⟩, ⟨"b", true⟩] ↔ verbose = true) ∧
    PyTorchConverter.processedNames true [⟨"a", false⟩, ⟨"b", true⟩] ≠
      PyTorchConverter.processedNames false [⟨"a", false⟩, ⟨"b", true⟩] :=
  c10_nontrainable_inclusion_depends_on_verbose
    [⟨"a", false⟩, ⟨"b", true⟩] ⟨"a", false⟩ (by simp) (by simp) rfl

/-- C8: weight clustering returns the tensor unchanged when it already has
at most `k` distinct scalar values; otherwise it keeps the shape and
replaces every value by the center of its assigned cluster (so, whenever
the KMeans fit assigns in-range labels, every output value is one of the
centroids). -/
theorem c8_clustering_short_circuit_and_centroids
    (km : ℤ → List ℚ → KMeansFit) (t : Tensor) (k : ℤ) :
    ((PyTorchConverter.countUnique t.values : ℤ) ≤ k →
        PyTorchConverter.applyWeightClustering km t k = t) ∧
    (k < (PyTorchConverter.countUnique t.values : ℤ) →
      (PyTorchConverter.applyWeightClustering km t k).shape = t.shape ∧
      (PyTorchConverter.applyWeightClustering km t k).values =
        (km k t.values).labels.map (fun l => (km k t.values).centers.getD l 0) ∧
      ((∀ l ∈ (km k t.values).labels, l < (km k t.values).centers.length) →
        ∀ v ∈ (PyTorchConverter.applyWeightClustering km t k).values,
          v ∈ (km k t.values).centers)) := by
  constructor
  · intro h
    simp [PyTorchConverter.applyWeightClustering, h]
  · intro h
    have hnot : ¬ (PyTorchConverter.countUnique t.values : ℤ) ≤ k := by omega
    refine ⟨?_, ?_, ?_⟩
    · simp [PyTorchConverter.applyWeightClustering, hnot]
    · simp [PyTorchConverter.applyWeightClustering, hnot]
    · intro hvalid v hv
      simp only [PyTorchConverter.applyWeightClustering, if_neg hnot] at hv
      obtain ⟨l, hl, rfl⟩ := List.mem_map.mp hv
      rw [List.getD_eq_getElem _ _ (hvalid l hl)]
      exact List.getElem_mem _

/-- C8, witness: the short-circuit case on the single-valued tensor `[5]`
with `k = 1`, and the clustering case on `[0, 1, 2]` with `k = 2` under a
concrete KMeans fit. -/
theorem c8_clustering_witness :
    PyTorchConverter.applyWeightClustering (fun _ _ => ⟨[0, 3/2], [0, 1, 1]⟩)
        ⟨[1], [5]⟩ 1 = ⟨[1], [5]⟩ ∧
    (PyTorchConverter.applyWeightClustering (fun _ _ => ⟨[0, 3/2], [0, 1, 1]⟩)
        ⟨[3], [0, 1, 2]⟩ 2).shape = [3] := by
  constructor
  · exact (c8_clustering_short_circuit_and_centroids _ ⟨[1], [5]⟩ 1).1
      (by norm_num [PyTorchConverter.countUnique, List.dedup])
  · exact ((c8_clustering_short_circuit_and_centroids _ ⟨[3], [0, 1, 2]⟩ 2).2
      (by norm_num [PyTorchConverter.countUnique, List.dedup])).1

/-- C5, counterexample: with a destination where the metadata JSON write
succeeds but the binary weights write fails, `_save_model` returns `False`
yet leaves the metadata file — complete with its `weight_offsets` index —
on disk with no accompanying blob: a partial metadata/blob pair survives,
so serialization is not atomic. -/
theorem c5_save_atomicity_counterexample :
    (PyTorchConverter.saveModel (fun _ => [0, 0, 0, 0]) (fun _ => [0, 0])
        true false [("fc", [("weight", ⟨[2], none, QData.bytes [9]⟩)])]
        ⟨none, none⟩).1 = false ∧
    (PyTorchConverter.saveModel (fun _ => [0, 0, 0, 0]) (fun _ => [0, 0])
        true false [("fc", [("weight", ⟨[2], none, QData.bytes [9]⟩)])]
        ⟨none, none⟩).2.metaFile = some [("fc", [("weight", 0)])] ∧
    (PyTorchConverter.saveModel (fun _ => [0, 0, 0, 0]) (fun _ => [0, 0])
        true false [("fc", [("weight", ⟨[2], none, QData.bytes [9]⟩)])]
        ⟨none, none⟩).2.binFile = none := by
  refine ⟨rfl, ?_, rfl⟩
  simp [PyTorchConverter.saveModel, PyTorchConverter.encodeStore,
    PyTorchConverter.encodeRoles]

/-- C5, amended: `_save_model` surfaces a failed write to the caller (it
returns `True` exactly when both file writes succeed, `False` otherwise,
logging the exception), but it writes the two files directly and in order —
metadata JSON first, then the binary blob — so when the metadata write
succeeds and the blob write fails, the metadata file is left on disk and
the blob is absent: the failure is not atomic. -/
theorem c5_save_not_atomic_amended (f32 f16 : ℚ → List ℕ)
    (store : List (String × List (String × PyTorchConverter.WeightEntry)))
    (fs : PyTorchConverter.FSState) :
    (∀ cm cb, (PyTorchConverter.saveModel f32 f16 cm cb store fs).1 = (cm && cb)) ∧
    (PyTorchConverter.saveModel f32 f16 true false store fs).2 =
      ⟨some (PyTorchConverter.encodeStore f32 f16 0 store).1, fs.binFile⟩ := by
  refine ⟨fun cm cb => ?_, rfl⟩
  cases cm <;> cases cb <;> rfl

/-- The inner serialization loop records, for each role of one owner, the
byte offset at which that weight's encoding starts: the blob it emits
splits as `pre ++ encodeEntry e ++ suf` with the recorded offset equal to
`base + pre.length`. -/
theorem encodeRoles_lookup (f32 f16 : ℚ → List ℕ) :
    ∀ (roles : List (String × PyTorchConverter.WeightEntry)) (base : ℕ)
      (role : String) (e : PyTorchConverter.WeightEntry),
      roles.lookup role = some e →
      ∃ pre suf,
        (PyTorchConverter.encodeRoles f32 f16 base roles).2 =
          pre ++ PyTorchConverter.encodeEntry f32 f16 e ++ suf ∧
        (PyTorchConverter.encodeRoles f32 f16 base roles).1.lookup role =
          some (base + pre.length)
  | [], _, _, _, h => by simp [List.lookup] at h
  | (r, e0) :: rest, base, role, e, h => by
      by_cases hr : role = r
      · subst hr
        simp only [List.lookup, beq_self_eq_true] at h
        have he : e0 = e := by simpa using h
        rw [← he]
        refine ⟨[], (PyTorchConverter.encodeRoles f32 f16
          (base + (PyTorchConverter.encodeEntry f32 f16 e0).length) rest).2, ?_, ?_⟩
        · simp [PyTorchConverter.encodeRoles]
        · simp [PyTorchConverter.encodeRoles, List.lookup]
      · have hbeq : (role == r) = false := beq_eq_false_iff_ne.mpr hr
        simp only [List.lookup, hbeq] at h
        obtain ⟨pre, suf, h1, h2⟩ := encodeRoles_lookup f32 f16 rest
          (base + (PyTorchConverter.encodeEntry f32 f16 e0).length) role e h
        refine ⟨PyTorchConverter.encodeEntry f32 f16 e0 ++ pre, suf, ?_, ?_⟩
        · simp [PyTorchConverter.encodeRoles, h1]
        · simp only [PyTorchConverter.encodeRoles, List.lookup, hbeq, h2,
            List.length_append]
          congr 1
          omega

/-- The outer serialization loop enjoys the same property across owners. -/
theorem encodeStore_lookup (f32 f16 : ℚ → List ℕ) :
    ∀ (store : List (String × List (String × PyTorchConverter.WeightEntry)))
      (base : ℕ) (owner role : String) (e : PyTorchConverter.WeightEntry),
      PyTorchConverter.lookupStore store owner role = some e →
      ∃ pre suf,
        (PyTorchConverter.encodeStore f32 f16 base store).2 =
          pre ++ PyTorchConverter.encodeEntry f32 f16 e ++ suf ∧
        PyTorchConverter.lookupOffset
            (PyTorchConverter.encodeStore f32 f16 base store).1 owner role =
          some (base + pre.length)
  | [], _, _, _, _, h => by
      simp [PyTorchConverter.lookupStore, List.lookup] at h
  | (o, roles) :: rest, base, owner, role, e, h => by
      by_cases ho : owner = o
      · subst ho
        simp only [PyTorchConverter.lookupStore, List.lookup, beq_self_eq_true,
          Option.bind_some] at h
        obtain ⟨pre, suf, h1, h2⟩ := encodeRoles_lookup f32 f16 roles base role e h
        refine ⟨pre, suf ++ (PyTorchConverter.encodeStore f32 f16
          (base + (PyTorchConverter.encodeRoles f32 f16 base roles).2.length)
          rest).2, ?_, ?_⟩
        · simp [PyTorchConverter.encodeStore, h1]
        · simp [PyTorchConverter.encodeStore, PyTorchConverter.lookupOffset,
            List.lookup, h2]
      · have hbeq : (owner == o) = false := beq_eq_false_iff_ne.mpr ho
        simp only [PyTorchConverter.lookupStore, List.lookup, hbeq] at h
        obtain ⟨pre, suf, h1, h2⟩ := encodeStore_lookup f32 f16 rest
          (base + (PyTorchConverter.encodeRoles f32 f16 base roles).2.length)
          owner role e h
        refine ⟨(PyTorchConverter.encodeRoles f32 f16 base roles).2 ++ pre,
          suf, ?_, ?_⟩
        · simp [PyTorchConverter.encodeStore, h1]
        · simp only [PyTorchConverter.encodeStore, PyTorchConverter.lookupOffset,
            List.lookup, hbeq, List.length_append] at h2 ⊢
          rw [h2]
          congr 1
          omega

/-- C6: for every weight store, the offset recorded in the metadata index
for an `(owner, role)` pair equals the length of the blob written before
that tensor's data (`pre.length`), i.e. the blob splits as
`pre ++ encodeEntry entry ++ suf` — and `encodeEntry` starts with the shape
header (one 32-bit integer per dimension, then scale/zero_point/bits for
quantized roles) followed by the payload, so the offset points at the
shape header, not at the payload. -/
theorem c6_offset_points_to_shape_header (f32 f16 : ℚ → List ℕ)
    (store : List (String × List (String × PyTorchConverter.WeightEntry)))
    (owner role : String) (e : PyTorchConverter.WeightEntry)
    (h : PyTorchConverter.lookupStore store owner role = some e) :
    ∃ pre suf,
      (PyTorchConverter.encodeStore f32 f16 0 store).2 =
        pre ++ PyTorchConverter.encodeEntry f32 f16 e ++ suf ∧
      PyTorchConverter.lookupOffset
          (PyTorchConverter.encodeStore f32 f16 0 store).1 owner role =
        some pre.length := by
  obtain ⟨pre, suf, h1, h2⟩ := encodeStore_lookup f32 f16 store 0 owner role e h
  exact ⟨pre, suf, h1, by simpa using h2⟩

/-- C6, witness: the offset theorem applied to a concrete two-owner store. -/
theorem c6_offset_witness :
    ∃ pre suf,
      (PyTorchConverter.encodeStore (fun _ => [0, 0, 0, 0]) (fun _ => [0, 0]) 0
          [("fc", [("weight", ⟨[2], none, QData.bytes [9]⟩),
                   ("bias", ⟨[1], none, QData.bytes [7]⟩)])]).2 =
        pre ++ PyTorchConverter.encodeEntry (fun _ => [0, 0, 0, 0]) (fun _ => [0, 0])
          ⟨[1], none, QData.bytes [7]⟩ ++ suf ∧
      PyTorchConverter.lookupOffset
          (PyTorchConverter.encodeStore (fun _ => [0, 0, 0, 0]) (fun _ => [0, 0]) 0
            [("fc", [("weight", ⟨[2], none, QData.bytes [9]⟩),
                     ("bias", ⟨[1], none, QData.bytes [7]⟩)])]).1 "fc" "bias" =
        some pre.length :=
  c6_offset_points_to_shape_header (fun _ => [0, 0, 0, 0]) (fun _ => [0, 0])
    [("fc", [("weight", ⟨[2], none, QData.bytes [9]⟩),
             ("bias", ⟨[1], none, QData.bytes [7]⟩)])] "fc" "bias"
    ⟨[1], none, QData.bytes [7]⟩ (by decide)

